import Mathlib

/-!
A shallow embedding of the vibrato effect implemented in
`comparison_gen.py` (functions `vibrato` and `process_audio_file`),
together with theorems settling the specification claims about it.

Samples are modelled as real numbers; the delay line is a `List ℝ`;
the Python exceptions are modelled with `Except`.
-/

open Real

/-- The failure conditions the Python `vibrato` code can raise:
the explicit `ValueError("Width greater than basic delay !!!")`,
numpy's refusal to allocate `np.zeros(L)` for negative `L`, and an
`IndexError` from reading `Delayline` outside its bounds. -/
inductive VibError where
  | configError : VibError
  | negativeDimension : VibError
  | indexError : VibError
  deriving DecidableEq

/-- Python's builtin `round` (round half to even), used by the source in
`DELAY = round(Delay * SAMPLERATE)` and `WIDTH = round(Width * SAMPLERATE)`. -/
noncomputable def pyRound (x : ℝ) : ℤ :=
  if x - ⌊x⌋ < 1 / 2 then ⌊x⌋
  else if 1 / 2 < x - ⌊x⌋ then ⌊x⌋ + 1
  else if ⌊x⌋ % 2 = 0 then ⌊x⌋ else ⌊x⌋ + 1

/-- Reading a numpy 1-D array at a (possibly negative) integer index, the
semantics of `Delayline[i]` in the source: indices in `[0, len)` read
directly, indices in `[-len, 0)` wrap from the end, and anything else
raises `IndexError` (modelled as `none`). -/
def npIndex (l : List ℝ) (i : ℤ) : Option ℝ :=
  if 0 ≤ i ∧ i < (l.length : ℤ) then some (l.getD i.toNat 0)
  else if -(l.length : ℤ) ≤ i ∧ i < 0 then some (l.getD (i + l.length).toNat 0)
  else none

/-- Total convenience form of `npIndex`, used to state what a successful
read returned. -/
def npGet (l : List ℝ) (i : ℤ) : ℝ :=
  (npIndex l i).getD 0

/-- The continuous tap position of the source's loop body:
`TAP = DELAY + WIDTH * np.sin(MODFREQ * 2 * np.pi * n)`. -/
noncomputable def tapPos (DELAY WIDTH : ℤ) (MODFREQ : ℝ) (n : ℕ) : ℝ :=
  (DELAY : ℝ) + (WIDTH : ℝ) * Real.sin (MODFREQ * 2 * Real.pi * n)

/-- The integer tap index of the source's loop body:
`i = np.floor(TAP).astype(int)`. -/
noncomputable def tapIndex (DELAY WIDTH : ℤ) (MODFREQ : ℝ) (n : ℕ) : ℤ :=
  ⌊tapPos DELAY WIDTH MODFREQ n⌋

/-- One push onto the delay line, the source's
`Delayline = np.concatenate(([x[n]], Delayline[: L - 1]))`: the new sample
is written at index 0 and the oldest entry falls off the end. -/
def pushDelayline (L : ℤ) (s : ℝ) (D : List ℝ) : List ℝ :=
  s :: D.take (L - 1).toNat

/-- The state of the delay line after the first `n` input samples have been
pushed (`delaylineAt x L 0` is the all-zero initial allocation). -/
def delaylineAt (x : List ℝ) (L : ℤ) : ℕ → List ℝ
  | 0 => List.replicate L.toNat 0
  | n + 1 => pushDelayline L (x.getD n 0) (delaylineAt x L n)

/-- One iteration of the source's `for n in range(LEN - 1)` loop body:
compute `TAP`, `i`, `frac`, push `x[n]`, then
`y[n] = Delayline[i] * frac + Delayline[i - 1] * (1 - frac)`.
A read outside `[-L, L)` raises `IndexError`. -/
noncomputable def vibratoStep (x : List ℝ) (L DELAY WIDTH : ℤ) (MODFREQ : ℝ)
    (n : ℕ) (Delayline y : List ℝ) : Except VibError (List ℝ × List ℝ) :=
  let TAP := tapPos DELAY WIDTH MODFREQ n
  let i := tapIndex DELAY WIDTH MODFREQ n
  let frac := TAP - (i : ℝ)
  let D := pushDelayline L (x.getD n 0) Delayline
  match npIndex D i, npIndex D (i - 1) with
  | some a, some b => Except.ok (D, y.set n (a * frac + b * (1 - frac)))
  | _, _ => Except.error VibError.indexError

/-- The source's processing loop, running `count` iterations starting at
sample index `n`, threading the delay line and output vector. -/
noncomputable def vibratoIter (x : List ℝ) (L DELAY WIDTH : ℤ) (MODFREQ : ℝ) :
    ℕ → ℕ → List ℝ → List ℝ → Except VibError (List ℝ × List ℝ)
  | 0, _, Delayline, y => Except.ok (Delayline, y)
  | count + 1, n, Delayline, y =>
    match vibratoStep x L DELAY WIDTH MODFREQ n Delayline y with
    | Except.ok p => vibratoIter x L DELAY WIDTH MODFREQ count (n + 1) p.1 p.2
    | Except.error e => Except.error e

/-- The body of `vibrato` after the derived integer parameters have been
computed: the `WIDTH > DELAY` guard, the allocations
`Delayline = np.zeros(L)` (with `L = 2 + DELAY + WIDTH * 2`; numpy rejects
a negative dimension) and `y = np.zeros_like(x)`, and the loop over
`range(LEN - 1)`. -/
noncomputable def vibratoDerived (x : List ℝ) (DELAY WIDTH : ℤ) (MODFREQ : ℝ) :
    Except VibError (List ℝ) :=
  if WIDTH > DELAY then Except.error VibError.configError
  else
    let LEN := x.length
    let L := 2 + DELAY + WIDTH * 2
    if L < 0 then Except.error VibError.negativeDimension
    else
      (vibratoIter x L DELAY WIDTH MODFREQ (LEN - 1) 0
          (List.replicate L.toNat 0) (List.replicate LEN 0)).map Prod.snd

/-- The source's `vibrato(x, SAMPLERATE, Modfreq, Width)`:
`Delay = Width`, `DELAY = round(Delay * SAMPLERATE)`,
`WIDTH = round(Width * SAMPLERATE)`, `MODFREQ = Modfreq / SAMPLERATE`
(a pure computation, hoisted before the guard), then the guarded loop. -/
noncomputable def vibrato (x : List ℝ) (SAMPLERATE Modfreq Width : ℝ) :
    Except VibError (List ℝ) :=
  let Delay := Width
  let DELAY := pyRound (Delay * SAMPLERATE)
  let WIDTH := pyRound (Width * SAMPLERATE)
  let MODFREQ := Modfreq / SAMPLERATE
  vibratoDerived x DELAY WIDTH MODFREQ

/-- The multi-channel branch of the source's `process_audio_file`:
`np.apply_along_axis(vibrato, 0, data, samplerate, Modfreq, Width)` applies
`vibrato` to each axis-0 slice (each channel's column) independently; the
first raised exception aborts the whole call. The channels are modelled as
a list of per-channel sample lists. -/
noncomputable def apply_along_axis (samplerate Modfreq Width : ℝ) :
    List (List ℝ) → Except VibError (List (List ℝ))
  | [] => Except.ok []
  | ch :: rest =>
    match vibrato ch samplerate Modfreq Width,
        apply_along_axis samplerate Modfreq Width rest with
    | Except.ok y, Except.ok ys => Except.ok (y :: ys)
    | Except.error e, _ => Except.error e
    | Except.ok _, Except.error e => Except.error e

theorem pyRound_intCast (k : ℤ) : pyRound (k : ℝ) = k := by
  unfold pyRound
  simp [Int.floor_intCast]

theorem pyRound_two_tenths_mul_ten : pyRound ((0.2 : ℝ) * 10) = 2 := by
  have h : ((0.2 : ℝ) * 10) = ((2 : ℤ) : ℝ) := by norm_num
  rw [h, pyRound_intCast]

theorem pyRound_half_mul_four : pyRound ((0.5 : ℝ) * 4) = 2 := by
  have h : ((0.5 : ℝ) * 4) = ((2 : ℤ) : ℝ) := by norm_num
  rw [h, pyRound_intCast]

theorem vibrato_eq (x : List ℝ) (SR mf W : ℝ) :
    vibrato x SR mf W
      = vibratoDerived x (pyRound (W * SR)) (pyRound (W * SR)) (mf / SR) := rfl

theorem npIndex_isSome_of {l : List ℝ} {i : ℤ} (h1 : -(l.length : ℤ) ≤ i)
    (h2 : i < (l.length : ℤ)) : ∃ a, npIndex l i = some a := by
  unfold npIndex
  rcases lt_or_le i 0 with hi | hi
  · rw [if_neg (by omega), if_pos ⟨h1, hi⟩]
    exact ⟨_, rfl⟩
  · rw [if_pos ⟨hi, h2⟩]
    exact ⟨_, rfl⟩

theorem pushDelayline_length {L : ℤ} (hL : 1 ≤ L) {s : ℝ} {D : List ℝ}
    (hD : D.length = L.toNat) : (pushDelayline L s D).length = L.toNat := by
  simp [pushDelayline, hD]
  omega

theorem delaylineAt_length {x : List ℝ} {L : ℤ} (hL : 1 ≤ L) (n : ℕ) :
    (delaylineAt x L n).length = L.toNat := by
  induction n with
  | zero => simp [delaylineAt]
  | succ n ih =>
    rw [delaylineAt]
    exact pushDelayline_length hL ih

theorem tapPos_bounds {D : ℤ} (hD : 0 ≤ D) (M : ℝ) (n : ℕ) :
    0 ≤ tapPos D D M n ∧ tapPos D D M n ≤ 2 * (D : ℝ) := by
  unfold tapPos
  have hs1 := Real.neg_one_le_sin (M * 2 * Real.pi * n)
  have hs2 := Real.sin_le_one (M * 2 * Real.pi * n)
  have hDr : (0 : ℝ) ≤ (D : ℝ) := by exact_mod_cast hD
  constructor
  · nlinarith
  · nlinarith

theorem tapIndex_bounds {D : ℤ} (hD : 0 ≤ D) (M : ℝ) (n : ℕ) :
    0 ≤ tapIndex D D M n ∧ tapIndex D D M n ≤ 2 * D := by
  obtain ⟨h1, h2⟩ := tapPos_bounds hD M n
  refine ⟨Int.floor_nonneg.mpr h1, ?_⟩
  have h3 : tapIndex D D M n ≤ ⌊((2 * D : ℤ) : ℝ)⌋ := by
    apply Int.floor_le_floor
    push_cast
    linarith
  rwa [Int.floor_intCast] at h3

theorem vibratoStep_ok_val {x : List ℝ} {L DELAY WIDTH : ℤ} {M : ℝ} {n : ℕ}
    {Dl y : List ℝ} {p : List ℝ × List ℝ}
    (h : vibratoStep x L DELAY WIDTH M n Dl y = Except.ok p) :
    p = (pushDelayline L (x.getD n 0) Dl,
      y.set n
        (npGet (pushDelayline L (x.getD n 0) Dl) (tapIndex DELAY WIDTH M n)
            * (tapPos DELAY WIDTH M n - (tapIndex DELAY WIDTH M n : ℝ))
          + npGet (pushDelayline L (x.getD n 0) Dl) (tapIndex DELAY WIDTH M n - 1)
            * (1 - (tapPos DELAY WIDTH M n - (tapIndex DELAY WIDTH M n : ℝ))))) := by
  simp only [vibratoStep] at h
  split at h
  next a b heq1 heq2 =>
    simp only [Except.ok.injEq] at h
    rw [← h]
    unfold npGet
    rw [heq1, heq2]
    rfl
  next =>
    exact absurd h (by simp)

theorem vibratoStep_error_shape {x : List ℝ} {L DELAY WIDTH : ℤ} {M : ℝ} {n : ℕ}
    {Dl y : List ℝ} {e : VibError}
    (h : vibratoStep x L DELAY WIDTH M n Dl y = Except.error e) :
    e = VibError.indexError := by
  simp only [vibratoStep] at h
  split at h
  · exact absurd h (by simp)
  · simp only [Except.error.injEq] at h
    exact h.symm

theorem vibratoStep_ok {x : List ℝ} {L D : ℤ} {M : ℝ} {n : ℕ} {Dl y : List ℝ}
    (hD : 0 ≤ D) (hL : L = 2 + D + D * 2) (hlen : Dl.length = L.toNat) :
    ∃ v, vibratoStep x L D D M n Dl y
      = Except.ok (pushDelayline L (x.getD n 0) Dl, y.set n v) := by
  have hL1 : (1 : ℤ) ≤ L := by omega
  have hplen : (pushDelayline L (x.getD n 0) Dl).length = L.toNat :=
    pushDelayline_length hL1 hlen
  obtain ⟨hi0, hi2⟩ := tapIndex_bounds hD M n
  obtain ⟨a, ha⟩ := npIndex_isSome_of (l := pushDelayline L (x.getD n 0) Dl)
    (i := tapIndex D D M n) (by rw [hplen]; omega) (by rw [hplen]; omega)
  obtain ⟨b, hb⟩ := npIndex_isSome_of (l := pushDelayline L (x.getD n 0) Dl)
    (i := tapIndex D D M n - 1) (by rw [hplen]; omega) (by rw [hplen]; omega)
  refine ⟨a * (tapPos D D M n - (tapIndex D D M n : ℝ))
    + b * (1 - (tapPos D D M n - (tapIndex D D M n : ℝ))), ?_⟩
  simp only [vibratoStep]
  rw [ha, hb]

theorem vibratoIter_error_shape {x : List ℝ} {L DELAY WIDTH : ℤ} {M : ℝ} :
    ∀ count n (Dl y : List ℝ) (e : VibError),
      vibratoIter x L DELAY WIDTH M count n Dl y = Except.error e →
      e = VibError.indexError := by
  intro count
  induction count with
  | zero =>
    intro n Dl y e h
    simp [vibratoIter] at h
  | succ c ih =>
    intro n Dl y e h
    rw [vibratoIter] at h
    cases hs : vibratoStep x L DELAY WIDTH M n Dl y with
    | ok p =>
      rw [hs] at h
      exact ih _ _ _ _ h
    | error e2 =>
      rw [hs] at h
      simp only [Except.error.injEq] at h
      rw [← h]
      exact vibratoStep_error_shape hs

theorem vibratoIter_ok {x : List ℝ} {L D : ℤ} {M : ℝ}
    (hD : 0 ≤ D) (hL : L = 2 + D + D * 2) :
    ∀ count n (Dl y : List ℝ), Dl.length = L.toNat →
      ∃ Df yf, vibratoIter x L D D M count n Dl y = Except.ok (Df, yf) := by
  intro count
  induction count with
  | zero =>
    intro n Dl y _
    exact ⟨Dl, y, rfl⟩
  | succ c ih =>
    intro n Dl y hlen
    obtain ⟨v, hv⟩ := vibratoStep_ok (x := x) (M := M) (n := n) (y := y) hD hL hlen
    rw [vibratoIter, hv]
    exact ih (n + 1) _ _ (pushDelayline_length (by omega) hlen)

theorem vibratoIter_ok_length {x : List ℝ} {L DELAY WIDTH : ℤ} {M : ℝ} :
    ∀ count n (Dl y Df yf : List ℝ),
      vibratoIter x L DELAY WIDTH M count n Dl y = Except.ok (Df, yf) →
      yf.length = y.length := by
  intro count
  induction count with
  | zero =>
    intro n Dl y Df yf h
    simp only [vibratoIter, Except.ok.injEq, Prod.mk.injEq] at h
    rw [← h.2]
  | succ c ih =>
    intro n Dl y Df yf h
    rw [vibratoIter] at h
    cases hs : vibratoStep x L DELAY WIDTH M n Dl y with
    | error e =>
      rw [hs] at h
      cases h
    | ok p =>
      rw [hs] at h
      have h' : vibratoIter x L DELAY WIDTH M c (n + 1) p.1 p.2
          = Except.ok (Df, yf) := h
      have h2 := ih (n + 1) p.1 p.2 Df yf h'
      have hp := vibratoStep_ok_val hs
      rw [h2, hp]
      simp

theorem getD_set_ne {y : List ℝ} {k m : ℕ} (h : k ≠ m) (v d : ℝ) :
    (y.set k v).getD m d = y.getD m d := by
  simp [List.getD_eq_getElem?_getD, List.getElem?_set_ne h]

theorem vibratoIter_getD_lt {x : List ℝ} {L DELAY WIDTH : ℤ} {M : ℝ} :
    ∀ count n (Dl y Df yf : List ℝ) (m : ℕ) (d : ℝ),
      vibratoIter x L DELAY WIDTH M count n Dl y = Except.ok (Df, yf) →
      m < n → yf.getD m d = y.getD m d := by
  intro count
  induction count with
  | zero =>
    intro n Dl y Df yf m d h _
    simp only [vibratoIter, Except.ok.injEq, Prod.mk.injEq] at h
    rw [← h.2]
  | succ c ih =>
    intro n Dl y Df yf m d h hm
    rw [vibratoIter] at h
    cases hs : vibratoStep x L DELAY WIDTH M n Dl y with
    | error e =>
      rw [hs] at h
      cases h
    | ok p =>
      rw [hs] at h
      have h' : vibratoIter x L DELAY WIDTH M c (n + 1) p.1 p.2
          = Except.ok (Df, yf) := h
      have h2 := ih (n + 1) p.1 p.2 Df yf m d h' (by omega)
      have hp := vibratoStep_ok_val hs
      rw [h2, hp]
      exact getD_set_ne (by omega) _ d

theorem vibratoIter_getD_ge {x : List ℝ} {L DELAY WIDTH : ℤ} {M : ℝ} :
    ∀ count n (Dl y Df yf : List ℝ) (m : ℕ) (d : ℝ),
      vibratoIter x L DELAY WIDTH M count n Dl y = Except.ok (Df, yf) →
      n + count ≤ m → yf.getD m d = y.getD m d := by
  intro count
  induction count with
  | zero =>
    intro n Dl y Df yf m d h _
    simp only [vibratoIter, Except.ok.injEq, Prod.mk.injEq] at h
    rw [← h.2]
  | succ c ih =>
    intro n Dl y Df yf m d h hm
    rw [vibratoIter] at h
    cases hs : vibratoStep x L DELAY WIDTH M n Dl y with
    | error e =>
      rw [hs] at h
      cases h
    | ok p =>
      rw [hs] at h
      have h' : vibratoIter x L DELAY WIDTH M c (n + 1) p.1 p.2
          = Except.ok (Df, yf) := h
      have h2 := ih (n + 1) p.1 p.2 Df yf m d h' (by omega)
      have hp := vibratoStep_ok_val hs
      rw [h2, hp]
      exact getD_set_ne (by omega) _ d

theorem vibratoIter_getD_formula {x : List ℝ} {L DELAY WIDTH : ℤ} {M : ℝ} :
    ∀ count n (y Df yf : List ℝ),
      vibratoIter x L DELAY WIDTH M count n (delaylineAt x L n) y
        = Except.ok (Df, yf) →
      ∀ m, n ≤ m → m < n + count → m < y.length →
        yf.getD m 0 =
          npGet (delaylineAt x L (m + 1)) (tapIndex DELAY WIDTH M m)
              * (tapPos DELAY WIDTH M m - (tapIndex DELAY WIDTH M m : ℝ))
            + npGet (delaylineAt x L (m + 1)) (tapIndex DELAY WIDTH M m - 1)
              * (1 - (tapPos DELAY WIDTH M m - (tapIndex DELAY WIDTH M m : ℝ))) := by
  intro count
  induction count with
  | zero =>
    intro n y Df yf h m hm1 hm2 hm3
    omega
  | succ c ih =>
    intro n y Df yf h m hm1 hm2 hm3
    rw [vibratoIter] at h
    cases hs : vibratoStep x L DELAY WIDTH M n (delaylineAt x L n) y with
    | error e =>
      rw [hs] at h
      cases h
    | ok p =>
      rw [hs] at h
      have h' : vibratoIter x L DELAY WIDTH M c (n + 1) p.1 p.2
          = Except.ok (Df, yf) := h
      have hp := vibratoStep_ok_val hs
      have hD1 : p.1 = delaylineAt x L (n + 1) := by
        rw [hp]
        rfl
      have hlen2 : p.2.length = y.length := by
        rw [hp]
        simp
      rcases Nat.lt_or_ge n m with hnm | hnm
      · rw [hD1] at h'
        exact ih (n + 1) p.2 Df yf h' m hnm (by omega) (by omega)
      · have hmn : m = n := by omega
        subst hmn
        have hpre := vibratoIter_getD_lt c (m + 1) p.1 p.2 Df yf m 0 h' (by omega)
        rw [hpre, hp]
        show (y.set m _).getD m 0 = _
        rw [List.getD_eq_getElem?_getD, List.getElem?_set_self hm3]
        rfl

theorem vibratoDerived_eq_of_nonneg {DELAY : ℤ} (hD : 0 ≤ DELAY)
    (x : List ℝ) (M : ℝ) :
    vibratoDerived x DELAY DELAY M =
      (vibratoIter x (2 + DELAY + DELAY * 2) DELAY DELAY M (x.length - 1) 0
        (List.replicate (2 + DELAY + DELAY * 2).toNat 0)
        (List.replicate x.length 0)).map Prod.snd := by
  simp only [vibratoDerived]
  rw [if_neg (lt_irrefl DELAY), if_neg (by omega)]

theorem vibrato_ok_of_nonneg (x : List ℝ) (SR mf W : ℝ)
    (hW : 0 ≤ pyRound (W * SR)) :
    ∃ y, vibrato x SR mf W = Except.ok y ∧ y.length = x.length := by
  rw [vibrato_eq, vibratoDerived_eq_of_nonneg hW]
  obtain ⟨Df, yf, hiter⟩ := vibratoIter_ok hW rfl (x.length - 1) 0
    (List.replicate (2 + pyRound (W * SR) + pyRound (W * SR) * 2).toNat 0)
    (List.replicate x.length 0) (by simp)
  refine ⟨yf, ?_, ?_⟩
  · rw [hiter]
    rfl
  · have hl := vibratoIter_ok_length _ _ _ _ _ _ hiter
    simpa using hl

theorem vibrato_error_shape {x : List ℝ} {SR mf W : ℝ} {e : VibError}
    (h : vibrato x SR mf W = Except.error e) :
    e = VibError.negativeDimension ∨ e = VibError.indexError := by
  rw [vibrato_eq] at h
  simp only [vibratoDerived] at h
  rw [if_neg (lt_irrefl (pyRound (W * SR)))] at h
  split at h
  · left
    simp only [Except.error.injEq] at h
    exact h.symm
  · cases hiter : vibratoIter x (2 + pyRound (W * SR) + pyRound (W * SR) * 2)
        (pyRound (W * SR)) (pyRound (W * SR)) (mf / SR) (x.length - 1) 0
        (List.replicate (2 + pyRound (W * SR) + pyRound (W * SR) * 2).toNat 0)
        (List.replicate x.length 0) with
    | ok p =>
      rw [hiter] at h
      exact absurd h (by simp [Except.map])
    | error e2 =>
      rw [hiter] at h
      simp only [Except.map] at h
      simp only [Except.error.injEq] at h
      right
      rw [← h]
      exact vibratoIter_error_shape _ _ _ _ _ hiter

theorem vibrato_ok_getD {x : List ℝ} {SR mf W : ℝ} {y : List ℝ} {n : ℕ}
    (hok : vibrato x SR mf W = Except.ok y) (hn : n + 1 < x.length) :
    y.getD n 0 =
      npGet (delaylineAt x (2 + pyRound (W * SR) + pyRound (W * SR) * 2) (n + 1))
          (tapIndex (pyRound (W * SR)) (pyRound (W * SR)) (mf / SR) n)
        * (tapPos (pyRound (W * SR)) (pyRound (W * SR)) (mf / SR) n
            - ((tapIndex (pyRound (W * SR)) (pyRound (W * SR)) (mf / SR) n : ℤ) : ℝ))
      + npGet (delaylineAt x (2 + pyRound (W * SR) + pyRound (W * SR) * 2) (n + 1))
          (tapIndex (pyRound (W * SR)) (pyRound (W * SR)) (mf / SR) n - 1)
        * (1 - (tapPos (pyRound (W * SR)) (pyRound (W * SR)) (mf / SR) n
            - ((tapIndex (pyRound (W * SR)) (pyRound (W * SR)) (mf / SR) n : ℤ) : ℝ))) := by
  rw [vibrato_eq] at hok
  simp only [vibratoDerived] at hok
  rw [if_neg (lt_irrefl (pyRound (W * SR)))] at hok
  split at hok
  · cases hok
  · cases hiter : vibratoIter x (2 + pyRound (W * SR) + pyRound (W * SR) * 2)
        (pyRound (W * SR)) (pyRound (W * SR)) (mf / SR) (x.length - 1) 0
        (List.replicate (2 + pyRound (W * SR) + pyRound (W * SR) * 2).toNat 0)
        (List.replicate x.length 0) with
    | error e2 =>
      rw [hiter] at hok
      exact absurd hok (by simp [Except.map])
    | ok p =>
      rw [hiter] at hok
      simp only [Except.map, Except.ok.injEq] at hok
      have hiter2 : vibratoIter x (2 + pyRound (W * SR) + pyRound (W * SR) * 2)
          (pyRound (W * SR)) (pyRound (W * SR)) (mf / SR) (x.length - 1) 0
          (delaylineAt x (2 + pyRound (W * SR) + pyRound (W * SR) * 2) 0)
          (List.replicate x.length 0) = Except.ok (p.1, p.2) := hiter
      have hform := vibratoIter_getD_formula (x.length - 1) 0
        (List.replicate x.length 0) p.1 p.2 hiter2 n (Nat.zero_le n)
        (by omega) (by simp; omega)
      rw [← hok]
      exact hform

theorem tapPos_zero_freq (D W : ℤ) (n : ℕ) : tapPos D W 0 n = (D : ℝ) := by
  simp [tapPos]

theorem tapIndex_zero_freq (D W : ℤ) (n : ℕ) : tapIndex D W 0 n = D := by
  simp [tapIndex, tapPos_zero_freq]

theorem vibrato_eval_123 : vibrato [1, 2, 3] 10 0 0.2 = Except.ok [0, 1, 0] := by
  rw [vibrato_eq, pyRound_two_tenths_mul_ten, zero_div]
  simp [vibratoDerived, vibratoIter, vibratoStep, tapIndex_zero_freq,
    tapPos_zero_freq, pushDelayline, npIndex, npGet, Except.map]

theorem vibrato_eval_ramp :
    vibrato [0, 1, 2, 3, 4, 5, 6, 7, 8, 9] 10 0 0.2
      = Except.ok [0, 0, 1, 2, 3, 4, 5, 6, 7, 0] := by
  rw [vibrato_eq, pyRound_two_tenths_mul_ten, zero_div]
  simp [vibratoDerived, vibratoIter, vibratoStep, tapIndex_zero_freq,
    tapPos_zero_freq, pushDelayline, npIndex, npGet, Except.map]

theorem vibrato_eval_silence3 :
    vibrato [0, 0, 0] 10 0 0.2 = Except.ok [0, 0, 0] := by
  rw [vibrato_eq, pyRound_two_tenths_mul_ten, zero_div]
  simp [vibratoDerived, vibratoIter, vibratoStep, tapIndex_zero_freq,
    tapPos_zero_freq, pushDelayline, npIndex, npGet, Except.map]

theorem vibrato_eval_impulse3 :
    vibrato [1, 0, 0] 10 0 0.2 = Except.ok [0, 1, 0] := by
  rw [vibrato_eq, pyRound_two_tenths_mul_ten, zero_div]
  simp [vibratoDerived, vibratoIter, vibratoStep, tapIndex_zero_freq,
    tapPos_zero_freq, pushDelayline, npIndex, npGet, Except.map]

theorem tapPos_quarter_zero : tapPos 2 2 ((1 : ℝ) / 4) 0 = 2 := by
  unfold tapPos
  push_cast
  norm_num

theorem tapIndex_quarter_zero : tapIndex 2 2 ((1 : ℝ) / 4) 0 = 2 := by
  unfold tapIndex
  rw [tapPos_quarter_zero, show (2 : ℝ) = ((2 : ℤ) : ℝ) by norm_num,
    Int.floor_intCast]

theorem tapPos_quarter_one : tapPos 2 2 ((1 : ℝ) / 4) 1 = 4 := by
  unfold tapPos
  rw [show ((1 : ℝ) / 4 * 2 * Real.pi * ((1 : ℕ) : ℝ)) = Real.pi / 2 by
    push_cast; ring]
  rw [Real.sin_pi_div_two]
  push_cast
  ring

theorem tapIndex_quarter_one : tapIndex 2 2 ((1 : ℝ) / 4) 1 = 4 := by
  unfold tapIndex
  rw [tapPos_quarter_one, show (4 : ℝ) = ((4 : ℤ) : ℝ) by norm_num,
    Int.floor_intCast]

theorem tapPos_quarter_two : tapPos 2 2 ((1 : ℝ) / 4) 2 = 2 := by
  unfold tapPos
  rw [show ((1 : ℝ) / 4 * 2 * Real.pi * ((2 : ℕ) : ℝ)) = Real.pi by
    push_cast; ring]
  rw [Real.sin_pi]
  push_cast
  ring

theorem tapIndex_quarter_two : tapIndex 2 2 ((1 : ℝ) / 4) 2 = 2 := by
  unfold tapIndex
  rw [tapPos_quarter_two, show (2 : ℝ) = ((2 : ℤ) : ℝ) by norm_num,
    Int.floor_intCast]

theorem tapPos_quarter_three : tapPos 2 2 ((1 : ℝ) / 4) 3 = 0 := by
  unfold tapPos
  rw [show ((1 : ℝ) / 4 * 2 * Real.pi * ((3 : ℕ) : ℝ)) = Real.pi + Real.pi / 2 by
    push_cast; ring]
  rw [Real.sin_add_pi_div_two, Real.cos_pi]
  push_cast
  ring

theorem tapIndex_quarter_three : tapIndex 2 2 ((1 : ℝ) / 4) 3 = 0 := by
  unfold tapIndex
  rw [tapPos_quarter_three]
  exact Int.floor_zero

theorem vibratoDerived_eval_run5 (M : ℝ)
    (h0i : tapIndex 2 2 M 0 = 2) (h0p : tapPos 2 2 M 0 = 2)
    (h1i : tapIndex 2 2 M 1 = 4) (h1p : tapPos 2 2 M 1 = 4)
    (h2i : tapIndex 2 2 M 2 = 2) (h2p : tapPos 2 2 M 2 = 2)
    (h3i : tapIndex 2 2 M 3 = 0) (h3p : tapPos 2 2 M 3 = 0) :
    vibratoDerived [1, 1, 1, 1, 1] 2 2 M = Except.ok [0, 0, 1, 0, 0] := by
  simp [vibratoDerived, vibratoIter, vibratoStep, pushDelayline, npIndex,
    npGet, Except.map, h0i, h0p, h1i, h1p, h2i, h2p, h3i, h3p]

theorem vibrato_eval_run5 :
    vibrato [1, 1, 1, 1, 1] 4 1 0.5 = Except.ok [0, 0, 1, 0, 0] := by
  rw [vibrato_eq, pyRound_half_mul_four]
  exact vibratoDerived_eval_run5 ((1 : ℝ) / 4)
    tapIndex_quarter_zero tapPos_quarter_zero
    tapIndex_quarter_one tapPos_quarter_one
    tapIndex_quarter_two tapPos_quarter_two
    tapIndex_quarter_three tapPos_quarter_three

theorem getD_replicate_zero (k m : ℕ) :
    (List.replicate k (0 : ℝ)).getD m 0 = 0 := by
  rw [List.getD_eq_getElem?_getD, List.getElem?_replicate]
  split <;> rfl

theorem vibrato_ok_inv {x : List ℝ} {SR mf W : ℝ} {y : List ℝ}
    (hok : vibrato x SR mf W = Except.ok y) :
    ∃ Df, vibratoIter x (2 + pyRound (W * SR) + pyRound (W * SR) * 2)
        (pyRound (W * SR)) (pyRound (W * SR)) (mf / SR) (x.length - 1) 0
        (delaylineAt x (2 + pyRound (W * SR) + pyRound (W * SR) * 2) 0)
        (List.replicate x.length 0) = Except.ok (Df, y) := by
  rw [vibrato_eq] at hok
  simp only [vibratoDerived] at hok
  rw [if_neg (lt_irrefl (pyRound (W * SR)))] at hok
  split at hok
  · cases hok
  · cases hiter : vibratoIter x (2 + pyRound (W * SR) + pyRound (W * SR) * 2)
        (pyRound (W * SR)) (pyRound (W * SR)) (mf / SR) (x.length - 1) 0
        (List.replicate (2 + pyRound (W * SR) + pyRound (W * SR) * 2).toNat 0)
        (List.replicate x.length 0) with
    | error e2 =>
      rw [hiter] at hok
      exact absurd hok (by simp [Except.map])
    | ok p =>
      rw [hiter] at hok
      simp only [Except.map, Except.ok.injEq] at hok
      refine ⟨p.1, ?_⟩
      have hiter2 : vibratoIter x (2 + pyRound (W * SR) + pyRound (W * SR) * 2)
          (pyRound (W * SR)) (pyRound (W * SR)) (mf / SR) (x.length - 1) 0
          (delaylineAt x (2 + pyRound (W * SR) + pyRound (W * SR) * 2) 0)
          (List.replicate x.length 0) = Except.ok (p.1, p.2) := hiter
      rw [hok] at hiter2
      exact hiter2

theorem vibrato_ok_length {x : List ℝ} {SR mf W : ℝ} {y : List ℝ}
    (hok : vibrato x SR mf W = Except.ok y) : y.length = x.length := by
  obtain ⟨Df, hiter⟩ := vibrato_ok_inv hok
  have hl := vibratoIter_ok_length _ _ _ _ _ _ hiter
  simpa using hl

/-- Claim C1: for every input, sample rate, modulation frequency and width
for which processing succeeds (validation passed), and every n in
[0, len x - 1), the produced output sample equals
Delayline[i] * frac + Delayline[i-1] * (1 - frac), where the delay line is
the state after x[n] was pushed, TAP = DELAY + WIDTH * sin(2*pi*(mf/SR)*n),
i = floor(TAP) and frac = TAP - i; frac multiplies the read at the lower
index i and (1 - frac) the read at index i - 1. -/
theorem c1_output_interpolation (x : List ℝ) (SR mf W : ℝ) (y : List ℝ) (n : ℕ)
    (hok : vibrato x SR mf W = Except.ok y) (hn : n + 1 < x.length) :
    y.getD n 0 =
      npGet (delaylineAt x (2 + pyRound (W * SR) + pyRound (W * SR) * 2) (n + 1))
          (tapIndex (pyRound (W * SR)) (pyRound (W * SR)) (mf / SR) n)
        * (tapPos (pyRound (W * SR)) (pyRound (W * SR)) (mf / SR) n
            - ((tapIndex (pyRound (W * SR)) (pyRound (W * SR)) (mf / SR) n : ℤ) : ℝ))
      + npGet (delaylineAt x (2 + pyRound (W * SR) + pyRound (W * SR) * 2) (n + 1))
          (tapIndex (pyRound (W * SR)) (pyRound (W * SR)) (mf / SR) n - 1)
        * (1 - (tapPos (pyRound (W * SR)) (pyRound (W * SR)) (mf / SR) n
            - ((tapIndex (pyRound (W * SR)) (pyRound (W * SR)) (mf / SR) n : ℤ) : ℝ))) :=
  vibrato_ok_getD hok hn

/-- Witness for C1 at the concrete run vibrato [1,2,3] 10 0 0.2, n = 0. -/
theorem c1_output_interpolation_witness :
    vibrato [1, 2, 3] 10 0 0.2 = Except.ok [0, 1, 0] ∧
    0 + 1 < ([1, 2, 3] : List ℝ).length ∧
    List.getD [0, 1, 0] 0 0 =
      npGet (delaylineAt [1, 2, 3] (2 + pyRound (0.2 * 10) + pyRound (0.2 * 10) * 2) (0 + 1))
          (tapIndex (pyRound (0.2 * 10)) (pyRound (0.2 * 10)) (0 / 10) 0)
        * (tapPos (pyRound (0.2 * 10)) (pyRound (0.2 * 10)) (0 / 10) 0
            - ((tapIndex (pyRound (0.2 * 10)) (pyRound (0.2 * 10)) (0 / 10) 0 : ℤ) : ℝ))
      + npGet (delaylineAt [1, 2, 3] (2 + pyRound (0.2 * 10) + pyRound (0.2 * 10) * 2) (0 + 1))
          (tapIndex (pyRound (0.2 * 10)) (pyRound (0.2 * 10)) (0 / 10) 0 - 1)
        * (1 - (tapPos (pyRound (0.2 * 10)) (pyRound (0.2 * 10)) (0 / 10) 0
            - ((tapIndex (pyRound (0.2 * 10)) (pyRound (0.2 * 10)) (0 / 10) 0 : ℤ) : ℝ))) :=
  ⟨vibrato_eval_123, by norm_num,
    c1_output_interpolation [1, 2, 3] 10 0 0.2 [0, 1, 0] 0 vibrato_eval_123
      (by norm_num)⟩

/-- Claim C2 counterexample: for the ramp input with sampleRate 10,
modFreq 0, width 0.2 (DELAY = WIDTH = 2), the claim asserts
output[2] = input[0] = 0; the code produces output[2] = input[1] = 1. -/
theorem c2_delay_counterexample :
    (vibrato [0, 1, 2, 3, 4, 5, 6, 7, 8, 9] 10 0 0.2).map
        (fun y => List.getD y 2 0) = Except.ok (1 : ℝ) ∧
    (1 : ℝ) ≠ List.getD ([0, 1, 2, 3, 4, 5, 6, 7, 8, 9] : List ℝ) 0 0 := by
  constructor
  · rw [vibrato_eval_ramp]
    simp [Except.map]
  · simp

/-- Claim C2 (amended): with modulation frequency 0 the tap is constant at
DELAY_SAMPLES = 2 as claimed, but frac = 0 places the whole interpolation
weight (1 - frac) = 1 on index i - 1 = 1, so the realized fixed delay is
DELAY_SAMPLES - 1 = 1 sample, not 2: the output for the ramp input is
[0, 0, 1, 2, 3, 4, 5, 6, 7, 0], i.e. output[n] = input[n-1] for
1 <= n < 9, and output[9] stays 0. -/
theorem c2_fixed_delay_amended :
    (∀ n : ℕ, tapIndex 2 2 ((0 : ℝ) / 10) n = 2) ∧
    vibrato [0, 1, 2, 3, 4, 5, 6, 7, 8, 9] 10 0 0.2
      = Except.ok [0, 0, 1, 2, 3, 4, 5, 6, 7, 0] := by
  constructor
  · intro n
    rw [zero_div]
    exact tapIndex_zero_freq 2 2 n
  · exact vibrato_eval_ramp

/-- Claim C3 counterexample: reading the delay line at the negative index
-1 does not fail; numpy wraps it and returns the last sample. -/
theorem c3_negative_index_counterexample :
    (-1 : ℤ) < 0 ∧ npIndex [1, 2, 3] (-1) = some 3 := by
  constructor
  · decide
  · simp [npIndex]

/-- Claim C3 (amended): `Delayline[idx]` fails with an index-out-of-range
condition exactly when idx < -L or idx >= L; indices in [-L, 0) do not
fail but wrap around to index L + idx, Python-style. -/
theorem c3_index_failure_amended (l : List ℝ) (i : ℤ) :
    npIndex l i = none ↔ i < -(l.length : ℤ) ∨ (l.length : ℤ) ≤ i := by
  unfold npIndex
  split_ifs with h1 h2 <;> simp <;> omega

/-- Claim C4 counterexample: with sample rate 4, modulation frequency 1 and
width 0.5 s (derived DELAY = WIDTH = 2, delay-line length L = 8), the loop
visits n = 3 on a length-5 input; there TAP = 0 and i = 0, so the second
read uses index i - 1 = -1, which is outside [0, L-1]; numpy wraps it
silently (no failure) and the whole run succeeds. -/
theorem c4_tap_range_counterexample :
    pyRound ((0.5 : ℝ) * 4) = 2 ∧
    tapIndex 2 2 ((1 : ℝ) / 4) 3 - 1 = -1 ∧
    ¬ (0 ≤ tapIndex 2 2 ((1 : ℝ) / 4) 3 - 1) ∧
    vibrato [1, 1, 1, 1, 1] 4 1 0.5 = Except.ok [0, 0, 1, 0, 0] := by
  refine ⟨pyRound_half_mul_four, ?_, ?_, vibrato_eval_run5⟩
  · rw [tapIndex_quarter_three]
    decide
  · rw [tapIndex_quarter_three]
    decide

/-- Claim C4 (amended): the low tap index i always lies in [0, L-2], hence
inside [0, L-1]; the older read i - 1 lies in [-1, L-1] and can actually
be -1 (see the counterexample), which numpy resolves by wrapping rather
than failing; the index-out-of-range failure itself is unreachable:
processing never returns IndexError. -/
theorem c4_tap_range_amended (x : List ℝ) (SR mf W : ℝ) (n : ℕ)
    (hW : 0 ≤ pyRound (W * SR)) :
    vibrato x SR mf W ≠ Except.error VibError.indexError ∧
    0 ≤ tapIndex (pyRound (W * SR)) (pyRound (W * SR)) (mf / SR) n ∧
    tapIndex (pyRound (W * SR)) (pyRound (W * SR)) (mf / SR) n
      ≤ (2 + pyRound (W * SR) + pyRound (W * SR) * 2) - 2 ∧
    -1 ≤ tapIndex (pyRound (W * SR)) (pyRound (W * SR)) (mf / SR) n - 1 := by
  obtain ⟨hi0, hi2⟩ := tapIndex_bounds hW (mf / SR) n
  obtain ⟨y, hy, _⟩ := vibrato_ok_of_nonneg x SR mf W hW
  refine ⟨?_, hi0, by omega, by omega⟩
  rw [hy]
  simp

/-- Witness for C4 (amended) at SR = 10, mf = 0, W = 0.2, n = 0. -/
theorem c4_tap_range_amended_witness :
    0 ≤ pyRound ((0.2 : ℝ) * 10) ∧
    (vibrato [1, 2, 3] 10 0 0.2 ≠ Except.error VibError.indexError ∧
      0 ≤ tapIndex (pyRound (0.2 * 10)) (pyRound (0.2 * 10)) (0 / 10) 0 ∧
      tapIndex (pyRound (0.2 * 10)) (pyRound (0.2 * 10)) (0 / 10) 0
        ≤ (2 + pyRound (0.2 * 10) + pyRound (0.2 * 10) * 2) - 2 ∧
      -1 ≤ tapIndex (pyRound (0.2 * 10)) (pyRound (0.2 * 10)) (0 / 10) 0 - 1) :=
  ⟨by rw [pyRound_two_tenths_mul_ten]; decide,
    c4_tap_range_amended [1, 2, 3] 10 0 0.2 0
      (by rw [pyRound_two_tenths_mul_ten]; decide)⟩

/-- Claim C6: the loop covers only indices [0, LEN-1), so for a nonempty
input that processed successfully the final output slot keeps its
zero-initialized default, and the output has the input's length. -/
theorem c6_last_slot_zero (x : List ℝ) (SR mf W : ℝ) (y : List ℝ)
    (hok : vibrato x SR mf W = Except.ok y) (_hx : x ≠ []) :
    y.getD (x.length - 1) 0 = 0 ∧ y.length = x.length := by
  obtain ⟨Df, hiter⟩ := vibrato_ok_inv hok
  refine ⟨?_, vibrato_ok_length hok⟩
  have hge := vibratoIter_getD_ge (x.length - 1) 0 _ _ _ _
    (x.length - 1) 0 hiter (by omega)
  rw [hge]
  exact getD_replicate_zero _ _

/-- Witness for C6 at the concrete run vibrato [1,2,3] 10 0 0.2. -/
theorem c6_last_slot_zero_witness :
    vibrato [1, 2, 3] 10 0 0.2 = Except.ok [0, 1, 0] ∧
    ([1, 2, 3] : List ℝ) ≠ [] ∧
    (List.getD ([0, 1, 0] : List ℝ) (([1, 2, 3] : List ℝ).length - 1) 0 = 0 ∧
      ([0, 1, 0] : List ℝ).length = ([1, 2, 3] : List ℝ).length) :=
  ⟨vibrato_eval_123, by simp,
    c6_last_slot_zero [1, 2, 3] 10 0 0.2 [0, 1, 0] vibrato_eval_123 (by simp)⟩

/-- Claim C7: for every configuration whose derived delay is nonnegative
(every validated configuration), processing succeeds with an output of
exactly the input's length, and the empty input yields the empty output
with no error. -/
theorem c7_length_preservation (x : List ℝ) (SR mf W : ℝ)
    (hW : 0 ≤ pyRound (W * SR)) :
    (vibrato x SR mf W).map List.length = Except.ok x.length ∧
    vibrato ([] : List ℝ) SR mf W = Except.ok [] := by
  constructor
  · obtain ⟨y, hy, hlen⟩ := vibrato_ok_of_nonneg x SR mf W hW
    rw [hy]
    simp [Except.map, hlen]
  · obtain ⟨y, hy, hlen⟩ := vibrato_ok_of_nonneg [] SR mf W hW
    rw [hy]
    simp only [List.length_nil] at hlen
    rw [List.length_eq_zero.mp hlen]

/-- Witness for C7 at SR = 10, mf = 0, W = 0.2. -/
theorem c7_length_preservation_witness :
    0 ≤ pyRound ((0.2 : ℝ) * 10) ∧
    ((vibrato [1, 2, 3] 10 0 0.2).map List.length
        = Except.ok (([1, 2, 3] : List ℝ).length) ∧
      vibrato ([] : List ℝ) 10 0 0.2 = Except.ok []) :=
  ⟨by rw [pyRound_two_tenths_mul_ten]; decide,
    c7_length_preservation [1, 2, 3] 10 0 0.2
      (by rw [pyRound_two_tenths_mul_ten]; decide)⟩

/-- Claim C8: at the derived-parameter level (after
DELAY = round(Width*SR) and WIDTH = round(Width*SR) have been computed),
whenever WIDTH exceeds DELAY the processing fails immediately with the
configuration error, before any sample is processed and with no partial
output; nothing is clamped. (At the `vibrato` entry point the two derived
values are computed by the identical expression, so this guard condition
never actually holds - see C10.) -/
theorem c8_config_guard (x : List ℝ) (DELAY WIDTH : ℤ) (M : ℝ)
    (h : WIDTH > DELAY) :
    vibratoDerived x DELAY WIDTH M = Except.error VibError.configError := by
  simp only [vibratoDerived]
  rw [if_pos h]

/-- Witness for C8 with derived DELAY = 1, WIDTH = 2. -/
theorem c8_config_guard_witness :
    (2 : ℤ) > 1 ∧ vibratoDerived [] 1 2 0 = Except.error VibError.configError :=
  ⟨by decide, c8_config_guard [] 1 2 0 (by decide)⟩

/-- Claim C9: when the multi-channel dispatch succeeds, the output has the
same channel count, and each output channel is exactly the single-channel
vibrato of the corresponding input channel alone (fresh zero-initialized
delay line, no dependence on other channels) with the same per-channel
length. -/
theorem c9_channel_dispatch (chans : List (List ℝ)) (SR mf W : ℝ)
    (out : List (List ℝ))
    (h : apply_along_axis SR mf W chans = Except.ok out) :
    out.length = chans.length ∧
    ∀ n, n < chans.length →
      vibrato (chans.getD n []) SR mf W = Except.ok (out.getD n []) ∧
      (out.getD n []).length = (chans.getD n []).length := by
  induction chans generalizing out with
  | nil =>
    simp only [apply_along_axis, Except.ok.injEq] at h
    subst h
    exact ⟨rfl, fun n hn => absurd hn (by simp)⟩
  | cons ch rest ih =>
    rw [apply_along_axis] at h
    cases hv : vibrato ch SR mf W with
    | error e =>
      rw [hv] at h
      cases h
    | ok yv =>
      rw [hv] at h
      cases hr : apply_along_axis SR mf W rest with
      | error e =>
        rw [hr] at h
        cases h
      | ok ys =>
        rw [hr] at h
        simp only [Except.ok.injEq] at h
        subst h
        obtain ⟨ihl, ihc⟩ := ih ys hr
        constructor
        · simp [ihl]
        · intro n hn
          cases n with
          | zero =>
            refine ⟨by simpa using hv, ?_⟩
            simpa using vibrato_ok_length hv
          | succ m =>
            have hm : m < rest.length := by simpa using hn
            simpa using ihc m hm

theorem apply_eval_two :
    apply_along_axis 10 0 0.2 [[0, 0, 0], [1, 0, 0]]
      = Except.ok [[0, 0, 0], [0, 1, 0]] := by
  simp only [apply_along_axis, vibrato_eval_silence3, vibrato_eval_impulse3]

/-- Witness for C9: a silent channel next to a unit impulse channel; the
impulse channel's response does not leak into the silent one. -/
theorem c9_channel_dispatch_witness :
    apply_along_axis 10 0 0.2 [[0, 0, 0], [1, 0, 0]]
      = Except.ok [[0, 0, 0], [0, 1, 0]] ∧
    1 < ([[0, 0, 0], [1, 0, 0]] : List (List ℝ)).length ∧
    vibrato (List.getD [[0, 0, 0], [1, 0, 0]] 1 []) 10 0 0.2
      = Except.ok (List.getD [[0, 0, 0], [0, 1, 0]] 1 []) ∧
    (List.getD ([[0, 0, 0], [0, 1, 0]] : List (List ℝ)) 1 []).length
      = (List.getD ([[0, 0, 0], [1, 0, 0]] : List (List ℝ)) 1 []).length :=
  ⟨apply_eval_two, by simp,
    ((c9_channel_dispatch [[0, 0, 0], [1, 0, 0]] 10 0 0.2 [[0, 0, 0], [0, 1, 0]]
        apply_eval_two).2 1 (by simp)).1,
    ((c9_channel_dispatch [[0, 0, 0], [1, 0, 0]] 10 0 0.2 [[0, 0, 0], [0, 1, 0]]
        apply_eval_two).2 1 (by simp)).2⟩

/-- Claim C10: the code derives DELAY and WIDTH with the identical rounded
expression round(Width * SAMPLERATE), so they are always equal and the
"Width greater than basic delay" guard can never fire: no call of vibrato
ever returns the configuration error, for any input whatsoever. -/
theorem c10_guard_unreachable (x : List ℝ) (SR mf W : ℝ) :
    pyRound (W * SR) = pyRound (W * SR) ∧
    vibrato x SR mf W ≠ Except.error VibError.configError := by
  refine ⟨rfl, fun h => ?_⟩
  rcases vibrato_error_shape h with h2 | h2 <;> cases h2
